import Mathlib

/-!
Verification of the sales-dashboard program `programma_commerciali.py`.

The program keeps sales records in a SQLite table `vendite`, ingests a CSV
into it (`main`, via `insert_data`), reads them back without the `id` and
`email_commerciale` columns (`load_data`, `filter_by_email`), filters an
in-memory record list by year / quarter / product / region with "Tutti" /
"Tutte" match-all sentinels (`query_data`), and answers a fixed set of
keyword-matched questions over the filtered records (`get_agent_response`).

Records are embedded as Lean structures; the dataframe of a query result is
a `List` of records in row order; SQLite `real` money values are modelled as
exact rationals (`Rat`); a fallible library call is modelled by an `Except`
value.
-/

/-- One row of the query result dataframes: exactly the columns selected by
`load_data` and `filter_by_email` (`nome_commerciale, anno, trimestre,
prodotto, area_geografica, quantita, ricavo` — note: no `id`, no
`email_commerciale`). -/
structure SalesRecord where
  nome_commerciale : String
  anno : Int
  trimestre : Int
  prodotto : String
  area_geografica : String
  quantita : Int
  ricavo : Rat
deriving DecidableEq

/-- Digits of a numeral folded to the value it denotes, most significant
first. -/
def digitsToNat (l : List Char) : Nat :=
  l.foldl (fun a c => a * 10 + (c.toNat - 48)) 0

/-- Models Python `int(s)` on a string: an optional sign followed by one or
more decimal digits parses to the denoted integer, anything else raises
`ValueError` (here: `none`). Python additionally strips surrounding
whitespace and accepts digit-group underscores; those inputs are not
modelled and no claim depends on them. -/
def pyInt? (s : String) : Option Int :=
  match s.data with
  | [] => none
  | c :: cs =>
    let neg : Bool := c = '-'
    let ds : List Char := if c = '-' || c = '+' then cs else c :: cs
    if ds ≠ [] && ds.all (fun d => d.isDigit) then
      some (if neg then -(digitsToNat ds : Int) else (digitsToNat ds : Int))
    else
      none

/-- Truthiness-plus-sentinel test of `query_data`: a criterion is applied
iff it is present (`some`), non-empty (Python truthiness of a string) and
different from its match-all sentinel. -/
def criterionActive (c : Option String) (sentinel : String) : Bool :=
  match c with
  | none => false
  | some s => !(s == "") && !(s == sentinel)

/-- Conversion step `int(anno)` / `int(trimestre)` of `query_data`: when the
criterion is active its string is converted, a non-numeric string raising
`ValueError`; an inactive criterion is not converted. -/
def parseCrit (c : Option String) (sentinel : String) : Except String (Option Int) :=
  if criterionActive c sentinel then
    match pyInt? (c.getD "") with
    | some n => Except.ok (some n)
    | none => Except.error "ValueError"
  else
    Except.ok none

/-- Embeds `query_data(df, anno, trimestre, prodotto, area)`: the boolean
mask starts all-true and is conjoined with an equality test per active
criterion (`anno` / `trimestre` against the `int(...)` conversion of the
criterion, `prodotto` / `area_geografica` against the criterion string);
`df[query]` keeps exactly the masked rows in input order, which on a list
is `List.filter`. The `int` conversions happen before any row is tested and
their `ValueError` aborts the call. -/
def query_data (df : List SalesRecord) (anno trimestre prodotto area : Option String) :
    Except String (List SalesRecord) :=
  match parseCrit anno "Tutti" with
  | Except.error e => Except.error e
  | Except.ok annoVal =>
    match parseCrit trimestre "Tutti" with
    | Except.error e => Except.error e
    | Except.ok trimVal =>
      Except.ok (df.filter fun r =>
        (match annoVal with
         | some n => r.anno == n
         | none => true) &&
        ((match trimVal with
          | some n => r.trimestre == n
          | none => true) &&
         ((if criterionActive prodotto "Tutti" then r.prodotto == prodotto.getD "" else true) &&
          (if criterionActive area "Tutte" then r.area_geografica == area.getD "" else true))))

/-- Criteria predicate following the specification's words (spec 4.3): each
option, when not "all"/absent, requires an exact equality match on its
field (the year and quarter options denoting their integer value); options
combine with logical AND; omitted/"all" options impose no constraint. -/
def specMatches (anno trimestre prodotto area : Option String) (r : SalesRecord) : Bool :=
  (!criterionActive anno "Tutti" || pyInt? (anno.getD "") == some r.anno) &&
  ((!criterionActive trimestre "Tutti" || pyInt? (trimestre.getD "") == some r.trimestre) &&
   ((!criterionActive prodotto "Tutti" || r.prodotto == prodotto.getD "") &&
    (!criterionActive area "Tutte" || r.area_geografica == area.getD "")))

/-- Sample record with year 2024 used in concrete witnesses. -/
def rec2024 : SalesRecord :=
  { nome_commerciale := "Anna", anno := 2024, trimestre := 1, prodotto := "Gadget",
    area_geografica := "Nord", quantita := 10, ricavo := 100 }

/-- Sample record with year 2023 used in concrete witnesses. -/
def rec2023 : SalesRecord :=
  { nome_commerciale := "Anna", anno := 2023, trimestre := 2, prodotto := "Widget",
    area_geografica := "Sud", quantita := 5, ricavo := 50 }

/-- Two-record dataframe used in concrete witnesses. -/
def exDf : List SalesRecord := [rec2024, rec2023]

/-- One row of the SQLite table `vendite`, with the store-assigned `id` and
all eight inserted columns (types per `create_table`: text, text, integer,
integer, text, text, integer, real). -/
structure DBRow where
  id : Int
  nome_commerciale : String
  email_commerciale : String
  anno : Int
  trimestre : Int
  prodotto : String
  area_geografica : String
  quantita : Int
  ricavo : Rat
deriving DecidableEq

/-- The table `vendite`: its rows in rowid order. -/
abbrev DB := List DBRow

/-- One CSV row as bound into the INSERT of `main`: each of the eight
values may be missing (a missing cell binds as NULL, violating the NOT
NULL column constraints). -/
structure CsvRow where
  nome : Option String
  email : Option String
  anno : Option Int
  trimestre : Option Int
  prodotto : Option String
  area : Option String
  quantita : Option Int
  ricavo : Option Rat
deriving DecidableEq

/-- All eight NOT NULL columns of `vendite` are present. -/
def wellFormed (r : CsvRow) : Bool :=
  r.nome.isSome && (r.email.isSome && (r.anno.isSome && (r.trimestre.isSome &&
    (r.prodotto.isSome && (r.area.isSome && (r.quantita.isSome && r.ricavo.isSome))))))

/-- The rowid SQLite assigns to a fresh INSERT on an INTEGER PRIMARY KEY
table: one more than the largest existing rowid (1 on an empty table). -/
def nextId (db : DB) : Int :=
  (db.map (fun r => r.id)).foldl max 0 + 1

/-- The table row a well-formed CSV row is stored as, given its assigned
rowid (the `getD` defaults are never reached on a well-formed row). -/
def csvToDBRow (i : Int) (d : CsvRow) : DBRow :=
  { id := i, nome_commerciale := d.nome.getD "", email_commerciale := d.email.getD "",
    anno := d.anno.getD 0, trimestre := d.trimestre.getD 0,
    prodotto := d.prodotto.getD "", area_geografica := d.area.getD "",
    quantita := d.quantita.getD 0, ricavo := d.ricavo.getD 0 }

/-- Embeds `insert_data(conn, data)`: appends one row to `vendite` with a
fresh id and returns the new rowid; a row with a missing (NULL) value in
any column violates a NOT NULL constraint, which sqlite3 raises as an
IntegrityError — modelled as the error value "ConstraintViolation". -/
def insert_data (db : DB) (d : CsvRow) : Except String (DB × Int) :=
  if wellFormed d then
    Except.ok (db ++ [csvToDBRow (nextId db) d], nextId db)
  else
    Except.error "ConstraintViolation"

/-- Embeds the ingestion loop of `main` (lines 128-145): the CSV rows are
inserted one by one in source order; the whole loop sits in a try/except
whose handler surfaces the error (`st.error`) and returns, so the first
failing insert aborts the session, keeping the rows inserted before it
(the aborted store state is carried alongside the error). -/
def runIngestion (db : DB) : List CsvRow → Except (String × DB) DB
  | [] => Except.ok db
  | r :: rs =>
    match insert_data db r with
    | Except.ok (dbNew, _) => runIngestion dbNew rs
    | Except.error e => Except.error (e, db)

/-- Projection of a table row onto the columns selected by `load_data` and
`filter_by_email` (`id` and `email_commerciale` are not selected). -/
def dbRowToRecord (r : DBRow) : SalesRecord :=
  { nome_commerciale := r.nome_commerciale, anno := r.anno, trimestre := r.trimestre,
    prodotto := r.prodotto, area_geografica := r.area_geografica,
    quantita := r.quantita, ricavo := r.ricavo }

/-- The rows of `SELECT nome_commerciale, anno, trimestre, prodotto,
area_geografica, quantita, ricavo FROM vendite`, in table order. -/
def scanRows (db : DB) : List SalesRecord :=
  db.map dbRowToRecord

/-- Embeds `load_data(conn)`: reads the full table through the SELECT above;
a sqlite3 error from the underlying read is caught, printed to the console
only, and turned into an empty dataframe. The outcome of the underlying
read is the `Except` argument. -/
def load_data (readResult : Except String DB) : List SalesRecord :=
  match readResult with
  | Except.ok db => scanRows db
  | Except.error _ => []

/-- Embeds `filter_by_email(conn, email)`: the same SELECT restricted by
`WHERE email_commerciale = ?` (case-sensitive exact match), with the same
catch-and-return-empty error handling. -/
def filter_by_email (readResult : Except String DB) (email : String) : List SalesRecord :=
  match readResult with
  | Except.ok db => scanRows (db.filter fun r => r.email_commerciale == email)
  | Except.error _ => []

/-- The record a CSV row should scan back as: its eight columns minus the
store-assigned id and minus the email column that the SELECT omits. -/
def csvProj (r : CsvRow) : SalesRecord :=
  { nome_commerciale := r.nome.getD "", anno := r.anno.getD 0,
    trimestre := r.trimestre.getD 0, prodotto := r.prodotto.getD "",
    area_geografica := r.area.getD "", quantita := r.quantita.getD 0,
    ricavo := r.ricavo.getD 0 }

/-- Sample well-formed CSV row (salesperson anna) used in concrete
counterexamples and witnesses. -/
def exCsv1 : CsvRow :=
  { nome := some "Anna", email := some "anna@pl.it", anno := some 2024,
    trimestre := some 1, prodotto := some "Gadget", area := some "Nord",
    quantita := some 10, ricavo := some 100 }

/-- Same row as `exCsv1` except for the salesperson email. -/
def exCsv2 : CsvRow :=
  { nome := some "Anna", email := some "bea@pl.it", anno := some 2024,
    trimestre := some 1, prodotto := some "Gadget", area := some "Nord",
    quantita := some 10, ricavo := some 100 }

/-- CSV row with a missing (NULL) email, violating the NOT NULL constraint
on insert. -/
def exBad : CsvRow :=
  { nome := some "Carla", email := none, anno := some 2024,
    trimestre := some 3, prodotto := some "Widget", area := some "Est",
    quantita := some 2, ricavo := some 20 }

/-- Well-formed CSV row for a distinct product, distinguishable from
`exCsv1` even after the scan's projection. -/
def exCsv3 : CsvRow :=
  { nome := some "Dario", email := some "dario@pl.it", anno := some 2023,
    trimestre := some 4, prodotto := some "Laptop", area := some "Ovest",
    quantita := some 7, ricavo := some 70 }

/-- Insertion of an element into a list sorted by `le`, keeping order. -/
def insertSorted {α : Type} (le : α → α → Bool) (x : α) : List α → List α
  | [] => [x]
  | y :: ys => if le x y then x :: y :: ys else y :: insertSorted le x ys

/-- Insertion sort by `le`; models the ascending group-key order that
pandas `groupby` produces. -/
def sortByLe {α : Type} (le : α → α → Bool) (l : List α) : List α :=
  l.foldr (insertSorted le) []

/-- Embeds `df.groupby(groupKey)[measure].sum()` as used throughout
`get_agent_response`: the distinct key values of the input, in ascending
order, each paired with the sum of the measure over the records having
that key. -/
def aggregate {α : Type} [DecidableEq α] (le : α → α → Bool) (df : List SalesRecord)
    (key : SalesRecord → α) (measure : SalesRecord → Rat) : List (α × Rat) :=
  (sortByLe le ((df.map key).dedup)).map
    (fun k => (k, ((df.filter fun r => decide (key r = k)).map measure).sum))

/-- Models the Python substring test `pat in s`. -/
def strContains (s pat : String) : Bool :=
  s.data.tails.any (fun t => pat.data.isPrefixOf t)

/-- Zero-padded two-digit rendering of a number below 100. -/
def pad2 (n : Nat) : String :=
  if n < 10 then "0" ++ toString n else toString n

/-- Round-half-even to the nearest integer, as Python rounds the last kept
digit when formatting. -/
def roundHalfEven (q : Rat) : Int :=
  let f : Int := Rat.floor q
  let frac : Rat := q - (f : Rat)
  if frac < 1/2 then f
  else if 1/2 < frac then f + 1
  else if f % 2 = 0 then f else f + 1

/-- Models the Python format `{x:.2f}` on the exact decimal value: the
number rounded (half-even) to two decimal places, with exactly two digits
after the point. Binary floating-point representation error is not
modelled; no claim depends on the printed digits. -/
def fmt2 (q : Rat) : String :=
  let n : Int := roundHalfEven (q * 100)
  let sgn : String := if n < 0 then "-" else ""
  let m : Nat := n.natAbs
  sgn ++ toString (m / 100) ++ "." ++ pad2 (m % 100)

/-- Ascending order on the integer group keys (pandas groupby key order). -/
def intLe (a b : Int) : Bool :=
  decide (a ≤ b)

/-- Ascending order on the string group keys (pandas groupby key order). -/
def strLe (a b : String) : Bool :=
  decide (a ≤ b)

/-- The fixed message returned when the record set is empty. -/
def noDataMsg : String :=
  "Non ci sono dati di vendita disponibili per la tua email."

/-- The fixed fallback message enumerating the supported intents. -/
def fallbackMsg : String :=
  "Non ho capito la domanda. Puoi chiedere informazioni sulle tue vendite per anno, trimestre, prodotto, area, ricavo totale o quantità totale."

/-- Keyword rule for per-year revenue: "vendite" and "anno" both occur. -/
def condAnno (dl : String) : Bool :=
  strContains dl "vendite" && strContains dl "anno"

/-- Keyword rule for per-quarter revenue: "vendite" and "trimestre". -/
def condTrimestre (dl : String) : Bool :=
  strContains dl "vendite" && strContains dl "trimestre"

/-- Keyword rule for per-product revenue: "vendite" and "prodotto" or
"articolo". -/
def condProdotto (dl : String) : Bool :=
  strContains dl "vendite" && (strContains dl "prodotto" || strContains dl "articolo")

/-- Keyword rule for per-region revenue: "vendite" and "area", "geografica"
or "regione". -/
def condArea (dl : String) : Bool :=
  strContains dl "vendite" &&
    (strContains dl "area" || strContains dl "geografica" || strContains dl "regione")

/-- Keyword rule for total revenue: "ricavo" and "totale", or the phrase
"totale ricavo". -/
def condRicavoTotale (dl : String) : Bool :=
  (strContains dl "ricavo" && strContains dl "totale") || strContains dl "totale ricavo"

/-- Keyword rule for total quantity: "quantità" and "totale", or the phrase
"totale quantità". -/
def condQuantitaTotale (dl : String) : Bool :=
  (strContains dl "quantità" && strContains dl "totale") || strContains dl "totale quantità"

/-- Per-year revenue answer: one line per year group with the revenue sum
formatted as currency. -/
def respAnno (df : List SalesRecord) : String :=
  "Le tue vendite per anno:\n" ++ String.intercalate "\n"
    ((aggregate intLe df (fun r => r.anno) (fun r => r.ricavo)).map
      (fun p => toString p.1 ++ ": €" ++ fmt2 p.2))

/-- Per-quarter revenue answer. -/
def respTrimestre (df : List SalesRecord) : String :=
  "Le tue vendite per trimestre:\n" ++ String.intercalate "\n"
    ((aggregate intLe df (fun r => r.trimestre) (fun r => r.ricavo)).map
      (fun p => "Trimestre " ++ toString p.1 ++ ": €" ++ fmt2 p.2))

/-- Per-product revenue answer. -/
def respProdotto (df : List SalesRecord) : String :=
  "Le tue vendite per prodotto:\n" ++ String.intercalate "\n"
    ((aggregate strLe df (fun r => r.prodotto) (fun r => r.ricavo)).map
      (fun p => p.1 ++ ": €" ++ fmt2 p.2))

/-- Per-region revenue answer. -/
def respArea (df : List SalesRecord) : String :=
  "Le tue vendite per area geografica:\n" ++ String.intercalate "\n"
    ((aggregate strLe df (fun r => r.area_geografica) (fun r => r.ricavo)).map
      (fun p => p.1 ++ ": €" ++ fmt2 p.2))

/-- Total revenue answer, formatted to two decimal places. -/
def respRicavoTotale (df : List SalesRecord) : String :=
  "Il tuo ricavo totale è di €" ++ fmt2 ((df.map fun r => r.ricavo).sum) ++ "."

/-- Total quantity answer, printed as-is. -/
def respQuantitaTotale (df : List SalesRecord) : String :=
  "La tua quantità totale venduta è di " ++ toString ((df.map fun r => r.quantita).sum) ++ "."

/-- Embeds `get_agent_response(df, domanda)`: the question is lower-cased,
the empty-dataframe check precedes all rule matching, and the keyword
rules are tested in source order, the first match producing its answer;
no match falls through to the fixed fallback message. The lower-casing
maps ASCII letters; accented capitals, which Python also lowers, do not
occur in the keywords. -/
def get_agent_response (df : List SalesRecord) (domanda : String) : String :=
  let dl := domanda.toLower
  if df.isEmpty then noDataMsg
  else if condAnno dl then respAnno df
  else if condTrimestre dl then respTrimestre df
  else if condProdotto dl then respProdotto df
  else if condArea dl then respArea df
  else if condRicavoTotale dl then respRicavoTotale df
  else if condQuantitaTotale dl then respQuantitaTotale df
  else fallbackMsg

/-- The responder as the specification describes it (spec 4.4): an ordered
list of keyword-predicate / answer pairs, in the priority order per-year,
per-quarter, per-product, per-region revenue, then total revenue, then
total quantity. -/
def agentRules : List ((String → Bool) × (List SalesRecord → String)) :=
  [(condAnno, respAnno), (condTrimestre, respTrimestre), (condProdotto, respProdotto),
   (condArea, respArea), (condRicavoTotale, respRicavoTotale),
   (condQuantitaTotale, respQuantitaTotale)]

/-- First-match-wins evaluation of an ordered rule list over the
lower-cased question, with a fallback for no match. -/
def firstMatch (rules : List ((String → Bool) × (List SalesRecord → String)))
    (fallback : String) (df : List SalesRecord) (dl : String) : String :=
  match rules with
  | [] => fallback
  | (c, h) :: rest => if c dl then h df else firstMatch rest fallback df dl

/-- Helper: a successful `query_data` call returns the `List.filter` of its
input under the spec-side criteria predicate. -/
lemma query_data_ok_eq_filter (df : List SalesRecord)
    (anno trimestre prodotto area : Option String) (out : List SalesRecord)
    (h : query_data df anno trimestre prodotto area = Except.ok out) :
    out = df.filter (specMatches anno trimestre prodotto area) := by
  unfold query_data at h
  rcases ha : parseCrit anno "Tutti" with e | annoVal
  · rw [ha] at h; cases h
  rcases ht : parseCrit trimestre "Tutti" with e | trimVal
  · rw [ha, ht] at h; cases h
  rw [ha, ht] at h
  injection h with h
  subst h
  apply List.filter_congr
  intro r _
  unfold specMatches
  congr 1
  · -- anno slot
    unfold parseCrit at ha
    by_cases hact : criterionActive anno "Tutti" = true
    · rw [if_pos hact] at ha
      rcases hp : pyInt? (anno.getD "") with _ | n
      · rw [hp] at ha; cases ha
      · rw [hp] at ha
        injection ha with ha
        subst ha
        simp [hact, hp, beq_iff_eq, eq_comm]
    · rw [if_neg hact] at ha
      injection ha with ha
      subst ha
      simp at hact
      simp [hact]
  congr 1
  · -- trimestre slot
    unfold parseCrit at ht
    by_cases hact : criterionActive trimestre "Tutti" = true
    · rw [if_pos hact] at ht
      rcases hp : pyInt? (trimestre.getD "") with _ | n
      · rw [hp] at ht; cases ht
      · rw [hp] at ht
        injection ht with ht
        subst ht
        simp [hact, hp, beq_iff_eq, eq_comm]
    · rw [if_neg hact] at ht
      injection ht with ht
      subst ht
      simp at hact
      simp [hact]
  congr 1
  · -- prodotto slot
    by_cases hact : criterionActive prodotto "Tutti" = true <;> simp [hact]
  · -- area slot
    by_cases hact : criterionActive area "Tutte" = true <;> simp [hact]

/-- C1: whenever `query_data` returns a dataframe, that dataframe consists
of exactly the input records satisfying every active criterion as an exact
equality match, the criteria combined by logical AND, in input order —
i.e. it is the `List.filter` of the input under the spec's criteria
predicate. -/
theorem query_data_matches_spec (df : List SalesRecord)
    (anno trimestre prodotto area : Option String) (out : List SalesRecord)
    (h : query_data df anno trimestre prodotto area = Except.ok out) :
    out = df.filter (specMatches anno trimestre prodotto area) :=
  query_data_ok_eq_filter df anno trimestre prodotto area out h

/-- Witness for C1 at a concrete input: filtering the two-record dataframe
by year "2024" returns exactly the 2024 record, which the theorem equates
with the spec-side filter. -/
theorem query_data_matches_spec_witness :
    [rec2024] = exDf.filter (specMatches (some "2024") none none none) :=
  query_data_matches_spec exDf (some "2024") none none none [rec2024] rfl

/-- C10: the match-all sentinel of `query_data` is asymmetric. The string
"Tutti" disables the year, quarter and product constraints, while the
region constraint is disabled only by "Tutte": passing "Tutti" as the
region is treated as a literal region value and keeps exactly the records
whose `area_geografica` equals the string "Tutti". -/
theorem sentinel_asymmetric (df : List SalesRecord) :
    query_data df (some "Tutti") (some "Tutti") (some "Tutti") (some "Tutte") = Except.ok df
    ∧ query_data df none none none (some "Tutti") =
        Except.ok (df.filter fun r => r.area_geografica == "Tutti") := by
  constructor
  · show query_data df (some "Tutti") (some "Tutti") (some "Tutti") (some "Tutte") = Except.ok df
    unfold query_data parseCrit criterionActive
    simp
  · show query_data df none none none (some "Tutti") =
        Except.ok (df.filter fun r => r.area_geografica == "Tutti")
    unfold query_data parseCrit criterionActive
    simp

/-- Counterexample for C2: `query_data` does have an error case — an
active year criterion whose string is not a decimal numeral makes the
`int(anno)` conversion raise `ValueError`, so the call fails instead of
returning a sequence. -/
theorem query_data_never_fails_cex :
    query_data [] (some "x") none none none = Except.error "ValueError" := rfl

/-- Helper: the criterion-conversion step succeeds when the criterion is
inactive or its string parses as an integer. -/
lemma parseCrit_ok (c : Option String) (sentinel : String)
    (h : criterionActive c sentinel = true → (pyInt? (c.getD "")).isSome = true) :
    ∃ v, parseCrit c sentinel = Except.ok v := by
  unfold parseCrit
  by_cases hact : criterionActive c sentinel = true
  · rcases hp : pyInt? (c.getD "") with _ | n
    · rw [hp] at h; simp [hact] at h
    · exact ⟨some n, by rw [if_pos hact]⟩
  · exact ⟨none, by rw [if_neg hact]⟩

/-- C2 amended: `query_data` never fails provided that each of the year and
quarter criteria, when active (present, non-empty and different from the
match-all sentinel), is a decimal-integer string; under that proviso it
returns a (possibly empty) dataframe for every input, including an empty
input, all-excluding criteria, and criteria values that occur nowhere in
the data. -/
theorem query_data_ok_of_parsable (df : List SalesRecord)
    (anno trimestre prodotto area : Option String)
    (ha : criterionActive anno "Tutti" = true → (pyInt? (anno.getD "")).isSome = true)
    (ht : criterionActive trimestre "Tutti" = true → (pyInt? (trimestre.getD "")).isSome = true) :
    ∃ out, query_data df anno trimestre prodotto area = Except.ok out := by
  obtain ⟨va, hva⟩ := parseCrit_ok anno "Tutti" ha
  obtain ⟨vt, hvt⟩ := parseCrit_ok trimestre "Tutti" ht
  unfold query_data
  rw [hva, hvt]
  exact ⟨_, rfl⟩

/-- Witness for C2 amended at a concrete input: a year value absent from
the data and an all-excluding region still yield a successful (empty)
result. -/
theorem query_data_ok_of_parsable_witness :
    ∃ out, query_data exDf (some "1999") none none (some "Ovest") = Except.ok out :=
  query_data_ok_of_parsable exDf (some "1999") none none (some "Ovest")
    (by decide) (by decide)

/-- Helper: records passing the spec criteria with an active option also
pass them with that option disabled (the other options unchanged). -/
lemma specMatches_imp_of_inactive_anno (anno trimestre prodotto area : Option String)
    (v : String) (hin : criterionActive anno "Tutti" = false) (r : SalesRecord)
    (h : specMatches (some v) trimestre prodotto area r = true) :
    specMatches anno trimestre prodotto area r = true := by
  unfold specMatches at h ⊢
  rw [hin]
  simp only [Bool.and_eq_true] at h ⊢
  exact ⟨by simp, h.2⟩

/-- Helper: same as `specMatches_imp_of_inactive_anno` for the quarter
option. -/
lemma specMatches_imp_of_inactive_trim (anno trimestre prodotto area : Option String)
    (v : String) (hin : criterionActive trimestre "Tutti" = false) (r : SalesRecord)
    (h : specMatches anno (some v) prodotto area r = true) :
    specMatches anno trimestre prodotto area r = true := by
  unfold specMatches at h ⊢
  rw [hin]
  simp only [Bool.and_eq_true] at h ⊢
  exact ⟨h.1, by simp, h.2.2⟩

/-- Helper: same as `specMatches_imp_of_inactive_anno` for the product
option. -/
lemma specMatches_imp_of_inactive_prod (anno trimestre prodotto area : Option String)
    (v : String) (hin : criterionActive prodotto "Tutti" = false) (r : SalesRecord)
    (h : specMatches anno trimestre (some v) area r = true) :
    specMatches anno trimestre prodotto area r = true := by
  unfold specMatches at h ⊢
  rw [hin]
  simp only [Bool.and_eq_true] at h ⊢
  exact ⟨h.1, h.2.1, by simp, h.2.2.2⟩

/-- Helper: same as `specMatches_imp_of_inactive_anno` for the region
option. -/
lemma specMatches_imp_of_inactive_area (anno trimestre prodotto area : Option String)
    (v : String) (hin : criterionActive area "Tutte" = false) (r : SalesRecord)
    (h : specMatches anno trimestre prodotto (some v) r = true) :
    specMatches anno trimestre prodotto area r = true := by
  unfold specMatches at h ⊢
  rw [hin]
  simp only [Bool.and_eq_true] at h ⊢
  exact ⟨h.1, h.2.1, h.2.2.1, by simp⟩

/-- Helper: filtering by a pointwise stronger predicate yields at most as
many records. -/
lemma length_filter_le_of_imp {α : Type} (l : List α) (p q : α → Bool)
    (h : ∀ a, q a = true → p a = true) :
    (l.filter q).length ≤ (l.filter p).length :=
  (List.monotone_filter_right l h).length_le

/-- C7: `query_data` is monotonic in its criteria — replacing any one
absent/match-all option by a concrete value never increases the number of
records returned (whenever both calls return). -/
theorem query_data_constraint_monotone (df : List SalesRecord)
    (anno trimestre prodotto area : Option String) (v : String) :
    (criterionActive anno "Tutti" = false →
      ∀ out outR, query_data df anno trimestre prodotto area = Except.ok out →
        query_data df (some v) trimestre prodotto area = Except.ok outR →
        outR.length ≤ out.length)
    ∧ (criterionActive trimestre "Tutti" = false →
      ∀ out outR, query_data df anno trimestre prodotto area = Except.ok out →
        query_data df anno (some v) prodotto area = Except.ok outR →
        outR.length ≤ out.length)
    ∧ (criterionActive prodotto "Tutti" = false →
      ∀ out outR, query_data df anno trimestre prodotto area = Except.ok out →
        query_data df anno trimestre (some v) area = Except.ok outR →
        outR.length ≤ out.length)
    ∧ (criterionActive area "Tutte" = false →
      ∀ out outR, query_data df anno trimestre prodotto area = Except.ok out →
        query_data df anno trimestre prodotto (some v) = Except.ok outR →
        outR.length ≤ out.length) := by
  refine ⟨fun hin out outR h hR => ?_, fun hin out outR h hR => ?_,
    fun hin out outR h hR => ?_, fun hin out outR h hR => ?_⟩
  · rw [query_data_ok_eq_filter df anno trimestre prodotto area out h,
      query_data_ok_eq_filter df (some v) trimestre prodotto area outR hR]
    exact length_filter_le_of_imp df _ _
      (specMatches_imp_of_inactive_anno anno trimestre prodotto area v hin)
  · rw [query_data_ok_eq_filter df anno trimestre prodotto area out h,
      query_data_ok_eq_filter df anno (some v) prodotto area outR hR]
    exact length_filter_le_of_imp df _ _
      (specMatches_imp_of_inactive_trim anno trimestre prodotto area v hin)
  · rw [query_data_ok_eq_filter df anno trimestre prodotto area out h,
      query_data_ok_eq_filter df anno trimestre (some v) area outR hR]
    exact length_filter_le_of_imp df _ _
      (specMatches_imp_of_inactive_prod anno trimestre prodotto area v hin)
  · rw [query_data_ok_eq_filter df anno trimestre prodotto area out h,
      query_data_ok_eq_filter df anno trimestre prodotto (some v) outR hR]
    exact length_filter_le_of_imp df _ _
      (specMatches_imp_of_inactive_area anno trimestre prodotto area v hin)

/-- Witness for C7 at a concrete input: the unconstrained query returns two
records, constraining the year to "2024" returns one. -/
theorem query_data_constraint_monotone_witness : [rec2024].length ≤ exDf.length :=
  (query_data_constraint_monotone exDf none none none none "2024").1
    rfl exDf [rec2024] rfl rfl

/-- Helper: one loop iteration on a well-formed row appends its table row
and continues. -/
lemma runIngestion_cons (db : DB) (r : CsvRow) (rs : List CsvRow)
    (hr : wellFormed r = true) :
    runIngestion db (r :: rs) = runIngestion (db ++ [csvToDBRow (nextId db) r]) rs := by
  show (match insert_data db r with
        | Except.ok (dbNew, _) => runIngestion dbNew rs
        | Except.error e => Except.error (e, db))
      = runIngestion (db ++ [csvToDBRow (nextId db) r]) rs
  unfold insert_data
  rw [if_pos hr]

/-- Helper: one loop iteration on a malformed row aborts the session with
the store unchanged. -/
lemma runIngestion_cons_bad (db : DB) (r : CsvRow) (rs : List CsvRow)
    (hr : wellFormed r = false) :
    runIngestion db (r :: rs) = Except.error ("ConstraintViolation", db) := by
  unfold runIngestion insert_data
  rw [if_neg (by simp [hr])]

/-- C8: both read-path operations convert a failed underlying read into an
empty result instead of propagating the error, making a read failure
indistinguishable at the interface from a successful scan of an empty
table. -/
theorem read_failure_yields_empty (e : String) (email : String) :
    load_data (Except.error e) = []
    ∧ load_data (Except.error e) = load_data (Except.ok [])
    ∧ filter_by_email (Except.error e) email = []
    ∧ filter_by_email (Except.error e) email = filter_by_email (Except.ok []) email :=
  ⟨rfl, rfl, rfl, rfl⟩

/-- Helper: ingesting only well-formed rows succeeds and appends exactly
their projections, in source order, to the scan of the store. -/
lemma runIngestion_wf (rows : List CsvRow) :
    ∀ db : DB, (∀ r ∈ rows, wellFormed r = true) →
      ∃ dbOut, runIngestion db rows = Except.ok dbOut
        ∧ scanRows dbOut = scanRows db ++ rows.map csvProj := by
  induction rows with
  | nil => exact fun db _ => ⟨db, rfl, by simp⟩
  | cons r rs ih =>
    intro db h
    have hr : wellFormed r = true := h r (by simp)
    obtain ⟨dbOut, hrun, hscan⟩ :=
      ih (db ++ [csvToDBRow (nextId db) r]) (fun x hx => h x (by simp [hx]))
    refine ⟨dbOut, ?_, ?_⟩
    · rw [runIngestion_cons db r rs hr]
      exact hrun
    · rw [hscan]
      show scanRows (db ++ [csvToDBRow (nextId db) r]) ++ List.map csvProj rs
          = scanRows db ++ List.map csvProj (r :: rs)
      simp [scanRows]
      rfl

/-- Counterexample for C3: the scan after ingestion is not equal
field-for-field (ignoring only the assigned id) to the input rows — the
SELECT of `load_data` omits the `email_commerciale` column, so two
one-row sources differing exactly in the salesperson email produce
identical scans. -/
theorem loader_roundtrip_cex :
    runIngestion [] [exCsv1] = Except.ok [csvToDBRow 1 exCsv1]
    ∧ runIngestion [] [exCsv2] = Except.ok [csvToDBRow 1 exCsv2]
    ∧ load_data (Except.ok [csvToDBRow 1 exCsv1]) = load_data (Except.ok [csvToDBRow 1 exCsv2])
    ∧ exCsv1.email ≠ exCsv2.email :=
  ⟨rfl, rfl, rfl, by decide⟩

/-- C3 amended: ingesting N well-formed rows into an empty store via the
loader and then scanning all yields N records, in source order, equal to
the input rows on every field except the store-assigned id and the
salesperson email — the email is stored but not returned by the scan's
SELECT. -/
theorem loader_roundtrip_amended (rows : List CsvRow)
    (h : ∀ r ∈ rows, wellFormed r = true) :
    ∃ dbOut, runIngestion [] rows = Except.ok dbOut
      ∧ load_data (Except.ok dbOut) = rows.map csvProj
      ∧ (load_data (Except.ok dbOut)).length = rows.length := by
  obtain ⟨dbOut, hrun, hscan⟩ := runIngestion_wf rows [] h
  have hld : load_data (Except.ok dbOut) = rows.map csvProj := by
    show scanRows dbOut = rows.map csvProj
    rw [hscan]
    rfl
  exact ⟨dbOut, hrun, hld, by rw [hld, List.length_map]⟩

/-- Witness for C3 amended at a concrete input: two well-formed rows scan
back as their two projections, in order. -/
theorem loader_roundtrip_amended_witness :
    ∃ dbOut, runIngestion [] [exCsv1, exCsv2] = Except.ok dbOut
      ∧ load_data (Except.ok dbOut) = [exCsv1, exCsv2].map csvProj
      ∧ (load_data (Except.ok dbOut)).length = [exCsv1, exCsv2].length :=
  loader_roundtrip_amended [exCsv1, exCsv2] (by decide)

/-- Counterexample for C9: with a well-formed row, then a row with a NULL
required field, then another well-formed row, ingestion does not continue
past the violation — it stops with the error (surfaced to the user, not
silently logged), the store keeps only the first row, and the third row is
never inserted. -/
theorem ingestion_abort_cex :
    runIngestion [] [exCsv1, exBad, exCsv3] =
      Except.error ("ConstraintViolation", [csvToDBRow 1 exCsv1])
    ∧ csvProj exCsv3 ∉ scanRows [csvToDBRow 1 exCsv1] :=
  ⟨rfl, by decide⟩

/-- Helper: ingestion of well-formed rows followed by a malformed row
aborts at the malformed row with exactly the well-formed ones inserted,
whatever follows. -/
lemma runIngestion_abort (pre : List CsvRow) (bad : CsvRow) (post : List CsvRow) :
    ∀ db : DB, (∀ r ∈ pre, wellFormed r = true) → wellFormed bad = false →
      ∃ dbMid, runIngestion db pre = Except.ok dbMid
        ∧ runIngestion db (pre ++ bad :: post) = Except.error ("ConstraintViolation", dbMid) := by
  induction pre with
  | nil =>
    intro db _ hbad
    refine ⟨db, rfl, ?_⟩
    rw [List.nil_append]
    exact runIngestion_cons_bad db bad post hbad
  | cons r rs ih =>
    intro db h hbad
    have hr : wellFormed r = true := h r (by simp)
    obtain ⟨dbMid, h1, h2⟩ :=
      ih (db ++ [csvToDBRow (nextId db) r]) (fun x hx => h x (by simp [hx])) hbad
    refine ⟨dbMid, ?_, ?_⟩
    · rw [runIngestion_cons db r rs hr]
      exact h1
    · rw [List.cons_append, runIngestion_cons db r (rs ++ bad :: post) hr]
      exact h2

/-- C9 amended: a row failing required-field (NOT NULL) validation is
fatal to the ingestion session — the rows inserted before it remain in the
store, the failing row and every subsequent row are not inserted, and the
error is surfaced to the user (`st.error` then return), not silently
logged. -/
theorem ingestion_abort_on_violation (db : DB) (pre : List CsvRow) (bad : CsvRow)
    (post : List CsvRow) (hpre : ∀ r ∈ pre, wellFormed r = true)
    (hbad : wellFormed bad = false) :
    ∃ dbMid, runIngestion db pre = Except.ok dbMid
      ∧ runIngestion db (pre ++ bad :: post) = Except.error ("ConstraintViolation", dbMid) :=
  runIngestion_abort pre bad post db hpre hbad

/-- Witness for C9 amended at a concrete input: one good row, one row with
a NULL email, one trailing good row. -/
theorem ingestion_abort_on_violation_witness :
    ∃ dbMid, runIngestion [] [exCsv1] = Except.ok dbMid
      ∧ runIngestion [] ([exCsv1] ++ exBad :: [exCsv3]) =
          Except.error ("ConstraintViolation", dbMid) :=
  ingestion_abort_on_violation [] [exCsv1] exBad [exCsv3] (by decide) (by decide)

/-- Helper: inserting into a sorted list is a permutation of consing. -/
lemma insertSorted_perm {α : Type} (le : α → α → Bool) (x : α) (l : List α) :
    (insertSorted le x l).Perm (x :: l) := by
  induction l with
  | nil => exact List.Perm.refl _
  | cons y ys ih =>
    show (if le x y then x :: y :: ys else y :: insertSorted le x ys).Perm (x :: y :: ys)
    by_cases h : le x y = true
    · rw [if_pos h]
    · rw [if_neg h]
      exact (ih.cons y).trans (List.Perm.swap x y ys)

/-- Helper: insertion sort permutes its input. -/
lemma sortByLe_perm {α : Type} (le : α → α → Bool) (l : List α) :
    (sortByLe le l).Perm l := by
  induction l with
  | nil => exact List.Perm.refl _
  | cons x xs ih =>
    exact (insertSorted_perm le x (sortByLe le xs)).trans (ih.cons x)

/-- Helper: summing an indicator of a key over a duplicate-free list that
contains the key yields the indicated value. -/
lemma sum_map_indicator {α : Type} [DecidableEq α] (a : α) (c : Rat) :
    ∀ ks : List α, ks.Nodup → a ∈ ks →
      (ks.map fun k => if a = k then c else 0).sum = c := by
  intro ks
  induction ks with
  | nil => intro _ h; cases h
  | cons k ks ih =>
    intro hnd hmem
    have hzero : ∀ l : List α, a ∉ l → (l.map fun k => if a = k then c else 0).sum = 0 := by
      intro l
      induction l with
      | nil => intro _; rfl
      | cons b bs ihz =>
        intro hna
        have hb : ¬a = b := fun hab => hna (hab ▸ List.mem_cons_self b bs)
        have hbs : a ∉ bs := fun hx => hna (List.mem_cons_of_mem b hx)
        simp [hb, ihz hbs]
    rcases List.mem_cons.mp hmem with hak | hmem2
    · subst hak
      have hnk : a ∉ ks := (List.nodup_cons.mp hnd).1
      simp [hzero ks hnk]
    · have hne : ¬a = k := by
        intro hak
        exact (List.nodup_cons.mp hnd).1 (hak ▸ hmem2)
      simp [hne, ih (List.nodup_cons.mp hnd).2 hmem2]

/-- Helper: over any duplicate-free key list covering the records, the sum
of per-group sums equals the total sum of the measure. -/
lemma sum_groups_eq_total {α : Type} [DecidableEq α] (key : SalesRecord → α)
    (measure : SalesRecord → Rat) (ks : List α) (hnd : ks.Nodup) :
    ∀ df : List SalesRecord, (∀ r ∈ df, key r ∈ ks) →
      (ks.map fun k => ((df.filter fun r => decide (key r = k)).map measure).sum).sum
        = (df.map measure).sum := by
  intro df
  induction df with
  | nil => intro _; simp
  | cons r rest ih =>
    intro hcov
    have hmem : key r ∈ ks := hcov r (by simp)
    have hrest : ∀ x ∈ rest, key x ∈ ks := fun x hx => hcov x (by simp [hx])
    have hsplit : ∀ k : α,
        (((r :: rest).filter fun x => decide (key x = k)).map measure).sum
          = (if key r = k then measure r else 0)
            + ((rest.filter fun x => decide (key x = k)).map measure).sum := by
      intro k
      by_cases hk : key r = k
      · simp [List.filter_cons, hk]
      · simp [List.filter_cons, hk]
    calc (ks.map fun k => (((r :: rest).filter fun x => decide (key x = k)).map measure).sum).sum
        = (ks.map fun k => (if key r = k then measure r else 0)
            + ((rest.filter fun x => decide (key x = k)).map measure).sum).sum := by
          exact congrArg List.sum (List.map_congr_left fun k _ => hsplit k)
      _ = (ks.map fun k => if key r = k then measure r else 0).sum
            + (ks.map fun k => ((rest.filter fun x => decide (key x = k)).map measure).sum).sum := by
          rw [← List.sum_map_add]
      _ = measure r + (rest.map measure).sum := by
          rw [sum_map_indicator (key r) (measure r) ks hnd hmem, ih hrest]
      _ = ((r :: rest).map measure).sum := by simp

/-- C4: `aggregate` is a partition of its input — the sum of all group sums
equals the sum of the measure over the whole input, every input record's
key appears in exactly one group of the result, and an empty input yields
an empty mapping; this holds for every group key and measure. -/
theorem aggregate_is_partition {α : Type} [DecidableEq α] (le : α → α → Bool)
    (df : List SalesRecord) (key : SalesRecord → α) (measure : SalesRecord → Rat) :
    ((aggregate le df key measure).map Prod.snd).sum = (df.map measure).sum
    ∧ (∀ r ∈ df, ((aggregate le df key measure).map Prod.fst).count (key r) = 1)
    ∧ (df = [] → aggregate le df key measure = []) := by
  have hperm : (sortByLe le ((df.map key).dedup)).Perm ((df.map key).dedup) :=
    sortByLe_perm le ((df.map key).dedup)
  have hnd : (sortByLe le ((df.map key).dedup)).Nodup :=
    hperm.nodup_iff.mpr (List.nodup_dedup (df.map key))
  have hcov : ∀ r ∈ df, key r ∈ sortByLe le ((df.map key).dedup) := by
    intro r hr
    rw [hperm.mem_iff, List.mem_dedup]
    exact List.mem_map.mpr ⟨r, hr, rfl⟩
  have hfst : (aggregate le df key measure).map Prod.fst
      = sortByLe le ((df.map key).dedup) := by
    unfold aggregate
    rw [List.map_map]
    exact List.map_id _
  refine ⟨?_, ?_, ?_⟩
  · unfold aggregate
    rw [List.map_map]
    exact sum_groups_eq_total key measure _ hnd df hcov
  · intro r hr
    rw [hfst]
    exact List.count_eq_one_of_mem hnd (hcov r hr)
  · intro hdf
    subst hdf
    rfl

/-- Witness for C4 at a concrete input: grouping the two-record dataframe
by year with the revenue measure, the 2024 record's key appears in exactly
one group. -/
theorem aggregate_is_partition_witness :
    ((aggregate (fun a b => decide (a ≤ b)) exDf (fun r => r.anno)
      (fun r => r.ricavo)).map Prod.fst).count rec2024.anno = 1 :=
  (aggregate_is_partition (fun a b => decide (a ≤ b)) exDf (fun r => r.anno)
    (fun r => r.ricavo)).2.1 rec2024 (by simp [exDf])

/-- C5: on an empty record set the responder returns the fixed no-data
message whatever the question says — the emptiness check runs before any
keyword rule. -/
theorem respond_empty_fixed_message (domanda : String) :
    get_agent_response [] domanda = noDataMsg := rfl

/-- C6: on a non-empty record set the responder lower-cases the question
and evaluates the keyword rules as the ordered first-match-wins dispatch
list per-year, per-quarter, per-product, per-region revenue, total
revenue, total quantity, falling back to the fixed message enumerating the
supported intents when no rule matches. -/
theorem respond_rule_dispatch (df : List SalesRecord) (domanda : String)
    (h : df ≠ []) :
    get_agent_response df domanda = firstMatch agentRules fallbackMsg df domanda.toLower := by
  match df, h with
  | r :: rest, _ =>
    show get_agent_response (r :: rest) domanda
        = firstMatch agentRules fallbackMsg (r :: rest) domanda.toLower
    unfold get_agent_response agentRules firstMatch
    rfl

/-- Witness for C6 at a concrete input: the unrecognized question of the
spec's example dispatches through the rule list (and, every rule failing,
ends at the fallback). -/
theorem respond_rule_dispatch_witness :
    get_agent_response [rec2024] "ciao come stai"
      = firstMatch agentRules fallbackMsg [rec2024] ("ciao come stai").toLower :=
  respond_rule_dispatch [rec2024] "ciao come stai" (by simp)
